/-
Verification development for the album module of the sunk Subsonic client
(src/src/album.rs). The Rust source is shallowly embedded: JSON values are an
inductive type, serde field extraction is modelled per field of `AlbumSerde`,
and the `parse().unwrap()` calls of `Album::deserialize` are modelled by a
distinguished `panicked` outcome. Collaborators that are not part of the given
source (the query builder, the transport, the song decoder) are modelled from
the specification and marked as such in their doc comments.
-/
import Mathlib

set_option autoImplicit false

/-- JSON values, as produced by the transport collaborator (serde_json values). -/
inductive Json where
  | null : Json
  | bool : Bool → Json
  | num : Int → Json
  | str : String → Json
  | arr : List Json → Json
  | obj : List (String × Json) → Json

/-- Models serde_json value indexing `res[key]`: the value under `key` when the
value is an object carrying that key, `Null` otherwise. -/
def Json.index (j : Json) (k : String) : Json :=
  match j with
  | .obj fields =>
    match fields.lookup k with
    | some v => v
    | none => .null
  | _ => .null

/-- Models serde_json `Value::as_array`. -/
def Json.as_array : Json → Option (List Json)
  | .arr xs => some xs
  | _ => none

def Json.isStr : Json → Bool
  | .str _ => true
  | _ => false

/-- Whether the value is a JSON number deserializable as a Rust u64. -/
def Json.isU64 : Json → Bool
  | .num n => decide (0 ≤ n ∧ n < 18446744073709551616)
  | _ => false

/-- Models Rust `str::parse::<u64>`: optional leading plus sign, then one or
more ASCII digits, value below 2^64; anything else is a parse failure. -/
def parse_u64 (s : String) : Option Nat :=
  let core := match s.data with
    | '+' :: rest => rest
    | l => l
  if core.isEmpty then none
  else if core.all Char.isDigit then
    let n := core.foldl (fun acc c => acc * 10 + (c.toNat - 48)) 0
    if n < 18446744073709551616 then some n else none
  else none

/-- Decode failure raised by the validating decode path; carries the field
name as context (spec section 7, DecodeError). -/
structure DecodeError where
  context : String
deriving Repr, DecidableEq

/-- Modelled from the spec: opaque failure of the transport collaborator
(spec section 6, TransportError); the transport itself (sunk.rs) is not part
of the given source. -/
structure TransportError where
  context : String
deriving Repr, DecidableEq

/-- Outcome of running `Album::deserialize` on a JSON value: a value, a serde
decode error, or a Rust panic (the `unwrap()` calls on identifier parsing). -/
inductive DecodeResult (α : Type) where
  | ok : α → DecodeResult α
  | fail : DecodeError → DecodeResult α
  | panicked : DecodeResult α
deriving Repr, DecidableEq

def DecodeResult.isFail {α : Type} : DecodeResult α → Bool
  | .fail _ => true
  | _ => false

def DecodeResult.isPanicked {α : Type} : DecodeResult α → Bool
  | .panicked => true
  | _ => false

/-- Outcome of a retrieval operation: a value, a propagated transport error, a
propagated decode error, or a propagated panic. -/
inductive OpResult (α : Type) where
  | ok : α → OpResult α
  | transport : TransportError → OpResult α
  | decode : DecodeError → OpResult α
  | panicked : OpResult α
deriving Repr, DecidableEq

/-- Modelled from the spec: the song collaborator exposes at least `id`,
`title`, `duration` (spec section 6); song.rs is not part of the given source. -/
structure Song where
  id : Nat
  title : String
  duration : Nat
deriving Repr, DecidableEq

/-- Required string field of a serde struct: present with JSON string type, or
the decode fails. -/
def reqStr (j : Json) (k : String) : Except DecodeError String :=
  match j.index k with
  | .str s => .ok s
  | _ => .error ⟨k⟩

/-- Optional string field: absent or JSON null decodes to `none`; a string
decodes to `some`; any other type is a decode failure. -/
def optStr (j : Json) (k : String) : Except DecodeError (Option String) :=
  match j.index k with
  | .null => .ok none
  | .str s => .ok (some s)
  | _ => .error ⟨k⟩

/-- Required u64 field: present with JSON unsigned-integer type in u64 range,
or the decode fails. -/
def reqU64 (j : Json) (k : String) : Except DecodeError Nat :=
  match j.index k with
  | .num n =>
    if 0 ≤ n ∧ n < 18446744073709551616 then .ok n.toNat else .error ⟨k⟩
  | _ => .error ⟨k⟩

/-- Optional u64 field. -/
def optU64 (j : Json) (k : String) : Except DecodeError (Option Nat) :=
  match j.index k with
  | .null => .ok none
  | .num n =>
    if 0 ≤ n ∧ n < 18446744073709551616 then .ok (some n.toNat) else .error ⟨k⟩
  | _ => .error ⟨k⟩

/-- Modelled from the spec: the song collaborator decode contract (spec
section 6) — one JSON object to one Song, exposing `id` (numeric string),
`title` and `duration`; song.rs is not part of the given source. -/
def Song.decode (j : Json) : Except DecodeError Song :=
  match reqStr j "id" with
  | .error e => .error e
  | .ok s =>
    match parse_u64 s with
    | none => .error ⟨"id"⟩
    | some idv =>
      match reqStr j "title" with
      | .error e => .error e
      | .ok title =>
        match reqU64 j "duration" with
        | .error e => .error e
        | .ok dur => .ok ⟨idv, title, dur⟩

/-- Decode every element of a song array; a single malformed song fails the
whole decode. -/
def decodeSongs : List Json → Except DecodeError (List Song)
  | [] => .ok []
  | x :: rest =>
    match Song.decode x with
    | .error e => .error e
    | .ok s =>
      match decodeSongs rest with
      | .error e => .error e
      | .ok ss => .ok (s :: ss)

/-- Optional nested `song` array of `AlbumSerde`: absent or null decodes to
`none`; an array decodes elementwise; any other type is a decode failure. -/
def optSongList (j : Json) (k : String) : Except DecodeError (Option (List Song)) :=
  match j.index k with
  | .null => .ok none
  | .arr xs =>
    match decodeSongs xs with
    | .error e => .error e
    | .ok ss => .ok (some ss)
  | _ => .error ⟨k⟩

/-- The closed vocabulary of album list orderings (album.rs, `ListType`). -/
inductive ListType where
  | AlphaByArtist
  | AlphaByName
  | Frequent
  | Highest
  | Newest
  | Random
  | Recent
  | Starred
deriving Repr, DecidableEq

/-- Canonical textual encoding of a ListType (album.rs, the Display impl). -/
def ListType.fmt : ListType → String
  | .AlphaByArtist => "alphabeticalByArtist"
  | .AlphaByName => "alphabeticalByName"
  | .Frequent => "frequent"
  | .Highest => "highest"
  | .Newest => "newest"
  | .Random => "random"
  | .Recent => "recent"
  | .Starred => "starred"

/-- The Album entity (album.rs, `struct Album`), field for field. -/
structure Album where
  id : Nat
  name : String
  artist : Option String
  artist_id : Option Nat
  cover_id : Option String
  duration : Nat
  year : Option Nat
  genre : Option String
  song_count : Nat
  songs : List Song
deriving Repr, DecidableEq

/-- The intermediate struct matching exactly what serde expects
(album.rs, `struct AlbumSerde`), field for field. -/
structure AlbumSerde where
  id : String
  name : String
  artist : Option String
  artistId : Option String
  coverArt : Option String
  songCount : Nat
  duration : Nat
  created : String
  year : Option Nat
  genre : Option String
  song : Option (List Song)
deriving Repr, DecidableEq

/-- The derived serde deserializer for `AlbumSerde`: every field is extracted
from the JSON object by name with its declared type; unknown fields are
ignored; the first failing field fails the whole decode. -/
def AlbumSerde.deserialize (j : Json) : Except DecodeError AlbumSerde :=
  match reqStr j "id" with
  | .error e => .error e
  | .ok idv =>
  match reqStr j "name" with
  | .error e => .error e
  | .ok namev =>
  match optStr j "artist" with
  | .error e => .error e
  | .ok artistv =>
  match optStr j "artistId" with
  | .error e => .error e
  | .ok artistIdv =>
  match optStr j "coverArt" with
  | .error e => .error e
  | .ok coverArtv =>
  match reqU64 j "songCount" with
  | .error e => .error e
  | .ok songCountv =>
  match reqU64 j "duration" with
  | .error e => .error e
  | .ok durationv =>
  match reqStr j "created" with
  | .error e => .error e
  | .ok createdv =>
  match optU64 j "year" with
  | .error e => .error e
  | .ok yearv =>
  match optStr j "genre" with
  | .error e => .error e
  | .ok genrev =>
  match optSongList j "song" with
  | .error e => .error e
  | .ok songv =>
    .ok ⟨idv, namev, artistv, artistIdv, coverArtv, songCountv, durationv,
         createdv, yearv, genrev, songv⟩

/-- The manual `Deserialize` impl for `Album` (album.rs lines 80 to 100): run
the `AlbumSerde` decode, then convert, parsing `id` and any present `artistId`
with `parse().unwrap()` — a failed parse is a Rust panic, modelled by
`DecodeResult.panicked`; a missing `song` array defaults to the empty list. -/
def Album.deserialize (j : Json) : DecodeResult Album :=
  match AlbumSerde.deserialize j with
  | .error e => .fail e
  | .ok raw =>
    match parse_u64 raw.id with
    | none => .panicked
    | some idv =>
      match raw.artistId with
      | none =>
        .ok ⟨idv, raw.name, raw.artist, none, raw.coverArt, raw.duration,
             raw.year, raw.genre, raw.songCount, raw.song.getD []⟩
      | some s =>
        match parse_u64 s with
        | none => .panicked
        | some aid =>
          .ok ⟨idv, raw.name, raw.artist, some aid, raw.coverArt, raw.duration,
               raw.year, raw.genre, raw.songCount, raw.song.getD []⟩

/-- Modelled from the spec: the generic query-parameter builder (query.rs is
not part of the given source); an ordered set of key and value pairs
(spec sections 6 and 9), empty at the start. -/
def Query.new : List (String × String) := []

/-- Modelled from the spec: appending one key and value pair to the builder. -/
def Query.arg (q : List (String × String)) (k v : String) : List (String × String) :=
  q ++ [(k, v)]

/-- Modelled from the spec: a key is inserted only when the caller-supplied
value is present; an absent value leaves the parameter set untouched
(spec section 9, optional outgoing parameters). -/
def Query.maybe_arg (q : List (String × String)) (k : String) (v : Option String) :
    List (String × String) :=
  match v with
  | some s => Query.arg q k s
  | none => q

/-- Modelled from the spec: finishing the builder yields the parameter set. -/
def Query.build (q : List (String × String)) : List (String × String) := q

/-- Modelled from the spec: a one-pair query, as in `Query::with` of query.rs. -/
def Query.withArg (k v : String) : List (String × String) :=
  Query.arg Query.new k v

/-- Modelled from the spec: `util::map_str` (util.rs is not part of the given
source) encodes a present numeric argument as its decimal text form
(spec section 6). -/
def map_str (x : Option Nat) : Option String :=
  x.map Nat.repr

/-- Modelled from the spec: the transport collaborator (spec section 6)
answers one GET per call with a JSON value or a transport error; sunk.rs is
not part of the given source. A call is recorded as the pair of the operation
name and the parameter set, so that theorems can count network calls. -/
structure Sunk where
  response : String → List (String × String) → Except TransportError Json

/-- The single-album retrieval (album.rs, `get_album`): one network call to
`getAlbum` with `id` as sole parameter, then the album decode; the second
component records the calls issued. -/
def get_album (sunk : Sunk) (id : Nat) :
    OpResult Album × List (String × List (String × String)) :=
  (match sunk.response "getAlbum" (Query.withArg "id" (Nat.repr id)) with
   | .error te => .transport te
   | .ok res =>
     match Album.deserialize res with
     | .ok a => .ok a
     | .fail e => .decode e
     | .panicked => .panicked,
   [("getAlbum", Query.withArg "id" (Nat.repr id))])

/-- The hydration accessor (album.rs, `Album::songs`): when the held song
list length differs from the declared count, re-fetch the album by its own id
and return the fresh songs; otherwise return the held list with no call. -/
def Album.songs_hydrated (self : Album) (sunk : Sunk) :
    OpResult (List Song) × List (String × List (String × String)) :=
  if self.songs.length ≠ self.song_count then
    match get_album sunk self.id with
    | (.ok fresh, calls) => (.ok fresh.songs, calls)
    | (.transport e, calls) => (.transport e, calls)
    | (.decode e, calls) => (.decode e, calls)
    | (.panicked, calls) => (.panicked, calls)
  else
    (.ok self.songs, [])

/-- How the hydration accessor maps the outcome of the underlying fetch: a
fresh album contributes its songs, every failure mode propagates unchanged. -/
def propagateSongs : OpResult Album → OpResult (List Song)
  | .ok fresh => .ok fresh.songs
  | .transport e => .transport e
  | .decode e => .decode e
  | .panicked => .panicked

/-- The outgoing parameter set of the list retrieval (album.rs lines 114 to
119): required `type`, then `size`, `offset`, `musicFolderId` each inserted
only when supplied. -/
def get_albums_args (list_type : ListType) (size offset folder_id : Option Nat) :
    List (String × String) :=
  Query.build
    (Query.maybe_arg
      (Query.maybe_arg
        (Query.maybe_arg
          (Query.arg Query.new "type" list_type.fmt)
          "size" (map_str size))
        "offset" (map_str offset))
      "musicFolderId" (map_str folder_id))

/-- The decode loop of `get_albums` (album.rs lines 123 to 128): decode the
elements in order, stopping at the first failure; a failure drops every
already-decoded album. -/
def decodeAlbumList : List Json → OpResult (List Album)
  | [] => .ok []
  | x :: rest =>
    match Album.deserialize x with
    | .fail e => .decode e
    | .panicked => .panicked
    | .ok a =>
      match decodeAlbumList rest with
      | .ok albums => .ok (a :: albums)
      | .transport e => .transport e
      | .decode e => .decode e
      | .panicked => .panicked

/-- The list retrieval (album.rs, `get_albums`): one network call to
`getAlbumList2` with the built parameter set; a response whose `album` key is
absent or not an array yields the empty list; otherwise the elements are
decoded in order. The second component records the calls issued. -/
def get_albums (sunk : Sunk) (list_type : ListType)
    (size offset folder_id : Option Nat) :
    OpResult (List Album) × List (String × List (String × String)) :=
  (match sunk.response "getAlbumList2" (get_albums_args list_type size offset folder_id) with
   | .error te => .transport te
   | .ok res =>
     match (res.index "album").as_array with
     | none => .ok []
     | some arr => decodeAlbumList arr,
   [("getAlbumList2", get_albums_args list_type size offset folder_id)])

/-- The flattened form of one optional outgoing parameter. -/
def optQueryParam (k : String) : Option Nat → List (String × String)
  | some n => [(k, Nat.repr n)]
  | none => []

/-- Whether the JSON value under `k`, when it is a string, parses as a u64;
vacuously true when the value is not a string. -/
def strFieldParses (j : Json) (k : String) : Bool :=
  match j.index k with
  | .str s => (parse_u64 s).isSome
  | _ => true

/-- A well-formed album JSON fixture whose optional fields are all absent. -/
def exGoodJson : Json :=
  Json.obj [("id", Json.str "7"), ("name", Json.str "Bellevue"),
            ("songCount", Json.num 3), ("duration", Json.num 9),
            ("created", Json.str "2017-03-12T11:07:25.000Z")]

/-- The Album that `exGoodJson` decodes to. -/
def exGoodAlbum : Album :=
  ⟨7, "Bellevue", none, none, none, 9, none, none, 3, []⟩

/-- An album JSON fixture whose `id` is not a decimal string. -/
def exBadIdJson : Json :=
  Json.obj [("id", Json.str "abc"), ("name", Json.str "x"),
            ("songCount", Json.num 0), ("duration", Json.num 0),
            ("created", Json.str "t")]

/-- An album JSON fixture missing the required `name` field. -/
def exNoNameJson : Json :=
  Json.obj [("id", Json.str "2")]

/-- An album JSON fixture missing only the undocumented `created` field. -/
def exNoCreatedJson : Json :=
  Json.obj [("id", Json.str "1"), ("name", Json.str "A"),
            ("songCount", Json.num 0), ("duration", Json.num 0)]

/-- A transport that always answers with the well-formed single-album JSON. -/
def exSunk : Sunk :=
  ⟨fun _ _ => .ok exGoodJson⟩

/-- A transport whose list response carries no `album` key. -/
def exEmptyListSunk : Sunk :=
  ⟨fun _ _ => .ok (Json.obj [("status", Json.str "ok")])⟩

/-- A transport whose list response holds one good and one malformed album. -/
def exBadListSunk : Sunk :=
  ⟨fun _ _ => .ok (Json.obj [("album", Json.arr [exGoodJson, exNoNameJson])])⟩

/-- An Album holding fewer songs than its declared count. -/
def exAlbumPartial : Album :=
  ⟨1, "Bellevue", none, none, none, 1920, none, none, 9, []⟩

/-- A song value used by the complete-album fixture. -/
def exSong : Song :=
  ⟨27, "Bellevue Avenue", 198⟩

/-- An Album whose held song list length equals its declared count. -/
def exAlbumComplete : Album :=
  ⟨1, "Bellevue", none, none, none, 198, none, none, 1, [exSong]⟩

theorem reqStr_ok {j : Json} {k s : String} (h : reqStr j k = .ok s) :
    j.index k = .str s := by
  unfold reqStr at h
  cases hj : j.index k with
  | str t => simp only [hj] at h; injection h with h2; rw [h2]
  | null => simp only [hj] at h; exact Except.noConfusion h
  | bool b => simp only [hj] at h; exact Except.noConfusion h
  | num n => simp only [hj] at h; exact Except.noConfusion h
  | arr xs => simp only [hj] at h; exact Except.noConfusion h
  | obj fs => simp only [hj] at h; exact Except.noConfusion h

theorem reqU64_ok {j : Json} {k : String} {n : Nat} (h : reqU64 j k = .ok n) :
    (j.index k).isU64 = true := by
  unfold reqU64 at h
  cases hj : j.index k with
  | num m =>
    simp only [hj] at h
    by_cases hp : 0 ≤ m ∧ m < 18446744073709551616
    · simp [Json.isU64, hp]
    · rw [if_neg hp] at h; exact Except.noConfusion h
  | null => simp only [hj] at h; exact Except.noConfusion h
  | bool b => simp only [hj] at h; exact Except.noConfusion h
  | str s => simp only [hj] at h; exact Except.noConfusion h
  | arr xs => simp only [hj] at h; exact Except.noConfusion h
  | obj fs => simp only [hj] at h; exact Except.noConfusion h

theorem optStr_ok_some {j : Json} {k s : String} (h : optStr j k = .ok (some s)) :
    j.index k = .str s := by
  unfold optStr at h
  cases hj : j.index k with
  | null => simp only [hj] at h; simp at h
  | str t => simp only [hj] at h; simp at h; rw [h]
  | bool b => simp only [hj] at h; exact Except.noConfusion h
  | num n => simp only [hj] at h; exact Except.noConfusion h
  | arr xs => simp only [hj] at h; exact Except.noConfusion h
  | obj fs => simp only [hj] at h; exact Except.noConfusion h

theorem albumSerde_ok_fields {j : Json} {raw : AlbumSerde}
    (h : AlbumSerde.deserialize j = .ok raw) :
    reqStr j "id" = .ok raw.id ∧ reqStr j "name" = .ok raw.name ∧
    optStr j "artistId" = .ok raw.artistId ∧
    reqU64 j "songCount" = .ok raw.songCount ∧
    reqU64 j "duration" = .ok raw.duration ∧
    reqStr j "created" = .ok raw.created := by
  unfold AlbumSerde.deserialize at h
  cases h1 : reqStr j "id" with
  | error e => simp only [h1] at h; exact Except.noConfusion h
  | ok idv =>
  simp only [h1] at h
  cases h2 : reqStr j "name" with
  | error e => simp only [h2] at h; exact Except.noConfusion h
  | ok namev =>
  simp only [h2] at h
  cases h3 : optStr j "artist" with
  | error e => simp only [h3] at h; exact Except.noConfusion h
  | ok artistv =>
  simp only [h3] at h
  cases h4 : optStr j "artistId" with
  | error e => simp only [h4] at h; exact Except.noConfusion h
  | ok artistIdv =>
  simp only [h4] at h
  cases h5 : optStr j "coverArt" with
  | error e => simp only [h5] at h; exact Except.noConfusion h
  | ok coverArtv =>
  simp only [h5] at h
  cases h6 : reqU64 j "songCount" with
  | error e => simp only [h6] at h; exact Except.noConfusion h
  | ok songCountv =>
  simp only [h6] at h
  cases h7 : reqU64 j "duration" with
  | error e => simp only [h7] at h; exact Except.noConfusion h
  | ok durationv =>
  simp only [h7] at h
  cases h8 : reqStr j "created" with
  | error e => simp only [h8] at h; exact Except.noConfusion h
  | ok createdv =>
  simp only [h8] at h
  cases h9 : optU64 j "year" with
  | error e => simp only [h9] at h; exact Except.noConfusion h
  | ok yearv =>
  simp only [h9] at h
  cases h10 : optStr j "genre" with
  | error e => simp only [h10] at h; exact Except.noConfusion h
  | ok genrev =>
  simp only [h10] at h
  cases h11 : optSongList j "song" with
  | error e => simp only [h11] at h; exact Except.noConfusion h
  | ok songv =>
  simp only [h11] at h
  injection h with h12
  subst h12
  exact ⟨rfl, rfl, rfl, rfl, rfl, rfl⟩

theorem get_album_calls (sunk : Sunk) (id : Nat) :
    (get_album sunk id).2 = [("getAlbum", [("id", Nat.repr id)])] :=
  rfl

theorem decodeAlbumList_ok_all {arr : List Json} {l : List Album}
    (h : decodeAlbumList arr = .ok l) :
    ∀ x ∈ arr, (Album.deserialize x).isFail = false := by
  induction arr generalizing l with
  | nil => intro x hx; exact absurd hx (List.not_mem_nil x)
  | cons y rest ih =>
    intro x hx
    unfold decodeAlbumList at h
    cases hd : Album.deserialize y with
    | fail e => simp only [hd] at h; exact OpResult.noConfusion h
    | panicked => simp only [hd] at h; exact OpResult.noConfusion h
    | ok a =>
      simp only [hd] at h
      cases hr : decodeAlbumList rest with
      | ok albums =>
        rcases List.mem_cons.mp hx with hxy | hxr
        · rw [hxy, hd]; rfl
        · exact ih hr x hxr
      | transport e => simp only [hr] at h; exact OpResult.noConfusion h
      | decode e => simp only [hr] at h; exact OpResult.noConfusion h
      | panicked => simp only [hr] at h; exact OpResult.noConfusion h

/-- C1: the claim says an album JSON whose `id` string is not a valid decimal
u64 fails the decode with a DecodeError. On the code this is false: the
`parse().unwrap()` of `Album::deserialize` panics on such an input, so no
DecodeError is produced (and no Album, and no fallback to zero or to the raw
string). This theorem evaluates the decoder at the failing input. -/
theorem albumDecode_badId_panics :
    Album.deserialize exBadIdJson = DecodeResult.panicked := by
  rfl

/-- C2: for an Album whose held songs length differs from its declared
song_count, the hydration accessor issues exactly one `getAlbum` call carrying
that Album's own id, and its outcome is the fetched Album's songs on success
while every failure mode of the fetch propagates unchanged. -/
theorem songsHydrated_refetch (a : Album) (sunk : Sunk)
    (h : a.songs.length ≠ a.song_count) :
    (a.songs_hydrated sunk).2 = [("getAlbum", [("id", Nat.repr a.id)])] ∧
    (a.songs_hydrated sunk).1 = propagateSongs (get_album sunk a.id).1 := by
  unfold Album.songs_hydrated
  rw [if_pos h]
  rcases hg : get_album sunk a.id with ⟨r, calls⟩
  have hc2 : calls = [("getAlbum", [("id", Nat.repr a.id)])] := by
    have h3 := get_album_calls sunk a.id
    rw [hg] at h3
    exact h3
  subst hc2
  cases r <;> exact ⟨rfl, rfl⟩

/-- Witness for C2 at a concrete partial Album and transport. -/
theorem songsHydrated_refetch_witness :
    (exAlbumPartial.songs_hydrated exSunk).2 =
      [("getAlbum", [("id", Nat.repr exAlbumPartial.id)])] ∧
    (exAlbumPartial.songs_hydrated exSunk).1 =
      propagateSongs (get_album exSunk exAlbumPartial.id).1 :=
  songsHydrated_refetch exAlbumPartial exSunk (by decide)

/-- C3: for an Album whose held songs length equals its declared song_count,
the hydration accessor returns the held sequence unchanged and issues zero
network calls. -/
theorem songsHydrated_identity (a : Album) (sunk : Sunk)
    (h : a.songs.length = a.song_count) :
    a.songs_hydrated sunk = (OpResult.ok a.songs, []) := by
  unfold Album.songs_hydrated
  rw [if_neg (not_not_intro h)]

/-- Witness for C3 at a concrete complete Album and transport. -/
theorem songsHydrated_identity_witness :
    exAlbumComplete.songs_hydrated exSunk = (OpResult.ok exAlbumComplete.songs, []) :=
  songsHydrated_identity exAlbumComplete exSunk (by decide)

/-- C4: when the list response carries no `album` key (or a non-array value
under it), the list retrieval succeeds with the empty album list instead of
failing. -/
theorem getAlbums_missingKey (sunk : Sunk) (lt : ListType)
    (size offset folder_id : Option Nat) (res : Json)
    (hres : sunk.response "getAlbumList2" (get_albums_args lt size offset folder_id)
      = .ok res)
    (hkey : (res.index "album").as_array = none) :
    (get_albums sunk lt size offset folder_id).1 = .ok [] := by
  unfold get_albums
  simp [hres, hkey]

/-- Witness for C4 at a concrete keyless list response. -/
theorem getAlbums_missingKey_witness :
    (get_albums exEmptyListSunk ListType.Random none none none).1 = .ok [] :=
  getAlbums_missingKey exEmptyListSunk ListType.Random none none none
    (Json.obj [("status", Json.str "ok")]) rfl rfl

/-- C5: when the `album` array is present and some element fails the album
decode, the whole list retrieval fails; in particular no partial list of the
successfully decoded albums is ever returned. -/
theorem getAlbums_noPartialList (sunk : Sunk) (lt : ListType)
    (size offset folder_id : Option Nat) (res : Json) (arr : List Json)
    (x : Json) (e : DecodeError) (l : List Album)
    (hres : sunk.response "getAlbumList2" (get_albums_args lt size offset folder_id)
      = .ok res)
    (harr : (res.index "album").as_array = some arr)
    (hmem : x ∈ arr) (hfail : Album.deserialize x = .fail e) :
    (get_albums sunk lt size offset folder_id).1 ≠ .ok l := by
  intro hok
  unfold get_albums at hok
  simp only [hres, harr] at hok
  have hall := decodeAlbumList_ok_all hok x hmem
  rw [hfail] at hall
  simp [DecodeResult.isFail] at hall

/-- Witness for C5: with one good and one malformed element, the partial
one-album list is not returned. -/
theorem getAlbums_noPartialList_witness :
    (get_albums exBadListSunk ListType.Newest none none none).1 ≠ .ok [exGoodAlbum] :=
  getAlbums_noPartialList exBadListSunk ListType.Newest none none none
    (Json.obj [("album", Json.arr [exGoodJson, exNoNameJson])])
    [exGoodJson, exNoNameJson] exNoNameJson ⟨"name"⟩ [exGoodAlbum]
    rfl rfl (List.mem_cons_of_mem _ (List.mem_cons_self _ _)) rfl

/-- C6: the outgoing parameter set of the list retrieval always binds `type`
to the classification's canonical encoding, and binds `size`, `offset`,
`musicFolderId` exactly when the corresponding optional argument is supplied;
an omitted argument appears under no key at all. -/
theorem getAlbums_query_params (sunk : Sunk) (lt : ListType)
    (size offset folder_id : Option Nat) :
    (get_albums sunk lt size offset folder_id).2 =
      [("getAlbumList2", get_albums_args lt size offset folder_id)] ∧
    get_albums_args lt size offset folder_id =
      ("type", lt.fmt) ::
        (optQueryParam "size" size ++ optQueryParam "offset" offset ++
         optQueryParam "musicFolderId" folder_id) ∧
    ((∃ v, ("size", v) ∈ get_albums_args lt size offset folder_id) ↔ size ≠ none) ∧
    ((∃ v, ("offset", v) ∈ get_albums_args lt size offset folder_id) ↔ offset ≠ none) ∧
    ((∃ v, ("musicFolderId", v) ∈ get_albums_args lt size offset folder_id)
      ↔ folder_id ≠ none) := by
  refine ⟨rfl, ?_, ?_, ?_, ?_⟩ <;>
    cases size <;> cases offset <;> cases folder_id <;>
      simp [get_albums_args, Query.build, Query.maybe_arg, Query.arg, Query.new,
            map_str, optQueryParam]

/-- C7: an album JSON in which any of the required fields `id`, `name`,
`duration`, `songCount` is absent or carries the wrong JSON type (string for
`id` and `name`, u64 integer for `duration` and `songCount`) fails the album
decode with a decode error; no Album is produced. -/
theorem albumDecode_requiredFields (j : Json)
    (h : (j.index "id").isStr = false ∨ (j.index "name").isStr = false ∨
         (j.index "duration").isU64 = false ∨ (j.index "songCount").isU64 = false) :
    (Album.deserialize j).isFail = true := by
  cases hs : AlbumSerde.deserialize j with
  | error e => simp [Album.deserialize, hs, DecodeResult.isFail]
  | ok raw =>
    obtain ⟨hid, hname, -, hsc, hdur, -⟩ := albumSerde_ok_fields hs
    rcases h with h | h | h | h
    · rw [reqStr_ok hid] at h; simp [Json.isStr] at h
    · rw [reqStr_ok hname] at h; simp [Json.isStr] at h
    · rw [reqU64_ok hdur] at h; exact absurd h (by simp)
    · rw [reqU64_ok hsc] at h; exact absurd h (by simp)

/-- Witness for C7 at an album JSON missing the required `name` field. -/
theorem albumDecode_requiredFields_witness :
    (Album.deserialize exNoNameJson).isFail = true :=
  albumDecode_requiredFields exNoNameJson (Or.inr (Or.inl rfl))

/-- C8: in an otherwise well-formed album JSON, missing `artist`, `artistId`,
`coverArt`, `year` and `genre` fields decode to the explicit absent value and
a missing `song` field decodes to the empty song sequence, without failing
the decode. -/
theorem albumDecode_optionalDefaults (j : Json) (sid nm c : String) (nid : Nat)
    (d sc : Int)
    (hid : j.index "id" = .str sid) (hparse : parse_u64 sid = some nid)
    (hnm : j.index "name" = .str nm)
    (hart : j.index "artist" = .null) (haid : j.index "artistId" = .null)
    (hcov : j.index "coverArt" = .null)
    (hsc : j.index "songCount" = .num sc) (hsc0 : 0 ≤ sc)
    (hsc1 : sc < 18446744073709551616)
    (hd : j.index "duration" = .num d) (hd0 : 0 ≤ d)
    (hd1 : d < 18446744073709551616)
    (hc : j.index "created" = .str c)
    (hyr : j.index "year" = .null) (hgen : j.index "genre" = .null)
    (hsong : j.index "song" = .null) :
    Album.deserialize j =
      .ok ⟨nid, nm, none, none, none, d.toNat, none, none, sc.toNat, []⟩ := by
  unfold Album.deserialize AlbumSerde.deserialize reqStr reqU64 optStr optU64 optSongList
  rw [hid, hnm, hart, haid, hcov, hsc, hd, hc, hyr, hgen, hsong]
  simp [hparse, hsc0, hsc1, hd0, hd1]

/-- Witness for C8 at a concrete album JSON with all optional fields absent. -/
theorem albumDecode_optionalDefaults_witness :
    Album.deserialize exGoodJson =
      .ok ⟨7, "Bellevue", none, none, none, Int.toNat 9, none, none, Int.toNat 3, []⟩ :=
  albumDecode_optionalDefaults exGoodJson "7" "Bellevue" "2017-03-12T11:07:25.000Z"
    7 9 3 rfl rfl rfl rfl rfl rfl rfl (by decide) (by decide) rfl (by decide)
    (by decide) rfl rfl rfl rfl

/-- C9: the album decoder requires a `created` field of JSON string type even
though the data model of the spec never mentions it: an album JSON lacking
`created` (or carrying it with a non-string type) fails the decode. -/
theorem albumDecode_requiresCreated (j : Json)
    (h : (j.index "created").isStr = false) :
    (Album.deserialize j).isFail = true := by
  cases hs : AlbumSerde.deserialize j with
  | error e => simp [Album.deserialize, hs, DecodeResult.isFail]
  | ok raw =>
    obtain ⟨-, -, -, -, -, hcr⟩ := albumSerde_ok_fields hs
    rw [reqStr_ok hcr] at h
    simp [Json.isStr] at h

/-- Witness for C9 at an album JSON missing only the `created` field. -/
theorem albumDecode_requiresCreated_witness :
    (Album.deserialize exNoCreatedJson).isFail = true :=
  albumDecode_requiresCreated exNoCreatedJson rfl

/-- C10: when the `id` field and any present `artistId` field hold strings
that parse as u64, the unwrap of the string-to-integer parse never panics:
the decode is total on such inputs. -/
theorem albumDecode_noPanic (j : Json)
    (h1 : strFieldParses j "id" = true) (h2 : strFieldParses j "artistId" = true) :
    (Album.deserialize j).isPanicked = false := by
  cases hs : AlbumSerde.deserialize j with
  | error e => simp [Album.deserialize, hs, DecodeResult.isPanicked]
  | ok raw =>
    obtain ⟨hid, -, haid, -, -, -⟩ := albumSerde_ok_fields hs
    have hgid := reqStr_ok hid
    unfold strFieldParses at h1
    rw [hgid] at h1
    simp at h1
    obtain ⟨idv, hp⟩ := Option.isSome_iff_exists.mp h1
    cases hai : raw.artistId with
    | none => simp [Album.deserialize, hs, hp, hai, DecodeResult.isPanicked]
    | some s =>
      rw [hai] at haid
      have hgs := optStr_ok_some haid
      unfold strFieldParses at h2
      rw [hgs] at h2
      simp at h2
      obtain ⟨aid, hps⟩ := Option.isSome_iff_exists.mp h2
      simp [Album.deserialize, hs, hp, hai, hps, DecodeResult.isPanicked]

/-- Witness for C10 at a concrete album JSON with a parsable `id` string. -/
theorem albumDecode_noPanic_witness :
    (Album.deserialize exGoodJson).isPanicked = false :=
  albumDecode_noPanic exGoodJson rfl rfl
